import Mathlib

/-! # SimpleChaincode: a key/value contract over a host ledger store

Shallow embedding of `chaincode.go`.  The Go methods of `SimpleChaincode`
(`Init`, `Invoke`, `write`, `Query`, `read`) become Lean functions in
state-passing style.  The two things a call can affect are made explicit in
`World`: the host's ledger store (reached only through the stub's `PutState`
and `GetState`) and the process's standard output (written by `fmt.Println`).

Conventions of the embedding:

* a Go `string` is a Lean `String`; `[]byte(s)` is the UTF-8 encoding of `s`;
* a Go `[]byte` value is `Option Bytes`, `none` standing for the `nil` slice;
* a Go `error` value is `Option GoError`, `none` standing for `nil`;
* `shim.ChaincodeStubInterface` belongs to the host platform, so the stub is a
  parameter: any pair of functions `PutState`/`GetState` over any store type.
-/

set_option autoImplicit false

/-! ## Data model -/

/-- Raw bytes, the contents of a non-nil Go `[]byte`. -/
abbrev Bytes := List UInt8

/-- The Go conversion `[]byte(s)`: the UTF-8 bytes of the string. -/
def bytesOf (s : String) : Bytes := s.toUTF8.data.toList

/-- A non-nil Go `error`, observed through its message (the result of `Error()`). -/
structure GoError where
  /-- The text returned by the `Error()` method -/
  msg : String
deriving DecidableEq, Repr

namespace errors

/-- Go `errors.New(text)`: an error whose message is `text`. -/
def New (text : String) : GoError := ⟨text⟩

end errors

/-- The part of `shim.ChaincodeStubInterface` that the contract consumes, over
a host store of type `σ`.  `PutState` yields the store after the call and the
returned `error`; `GetState` observes the store and yields the Go pair
`([]byte, error)`. -/
structure ChaincodeStubInterface (σ : Type) where
  /-- The host operation `PutState(key, value) error` -/
  PutState : σ → String → Bytes → σ × Option GoError
  /-- The host operation `GetState(key) ([]byte, error)` -/
  GetState : σ → String → Option Bytes × Option GoError

/-- Everything a call can affect: the host store and standard output. -/
structure World (σ : Type) where
  /-- The host's ledger store -/
  store : σ
  /-- The text printed so far -/
  stdout : String

/-- The outcome of an entry point: the Go return pair `([]byte, error)` and
the world after the call. -/
structure Outcome (σ : Type) where
  /-- The first return value, `none` for `nil` -/
  payload : Option Bytes
  /-- The second return value, `none` for `nil` -/
  err : Option GoError
  /-- The world after the call -/
  world : World σ

namespace fmt

/-- Go `fmt.Println(line)`: the line and a newline are appended to standard output. -/
def Println {σ : Type} (w : World σ) (line : String) : World σ :=
  { w with stdout := w.stdout ++ line ++ "\n" }

end fmt

/-- The contract's handler type; it has no fields. -/
structure SimpleChaincode where
deriving DecidableEq, Repr

namespace SimpleChaincode

variable {σ : Type}

/-- Go `func (t *SimpleChaincode) Init(stub, function, args)`. -/
def Init (_t : SimpleChaincode) (stub : ChaincodeStubInterface σ) (w : World σ)
    (_function : String) (args : List String) : Outcome σ :=
  if h : args.length ≠ 1 then
    ⟨none, some (errors.New "Incorrect number of arguments. Expecting 1"), w⟩
  else
    -- Stores the first element in the args argument to the key "hello_world"
    let r := stub.PutState w.store "hello_world" (bytesOf (args.get ⟨0, by omega⟩))
    let w := { w with store := r.1 }
    match r.2 with
    | some err => ⟨none, some err, w⟩
    | none => ⟨none, none, w⟩

/-- Go `func (t *SimpleChaincode) write(stub, args)`. -/
def write (_t : SimpleChaincode) (stub : ChaincodeStubInterface σ) (w : World σ)
    (args : List String) : Outcome σ :=
  let w := fmt.Println w "running write()"
  if h : args.length ≠ 2 then
    ⟨none, some (errors.New
      "Incorrect number of arguments. Expecting 2: name of the key and value to set"), w⟩
  else
    let key := args.get ⟨0, by omega⟩
    let value := args.get ⟨1, by omega⟩
    let r := stub.PutState w.store key (bytesOf value)
    let w := { w with store := r.1 }
    match r.2 with
    | some err => ⟨none, some err, w⟩
    | none => ⟨none, none, w⟩

/-- Go `func (t *SimpleChaincode) Invoke(stub, function, args)`. -/
def Invoke (t : SimpleChaincode) (stub : ChaincodeStubInterface σ) (w : World σ)
    (function : String) (args : List String) : Outcome σ :=
  let w := fmt.Println w ("invoke is running " ++ function)
  -- Handle different functions
  if function == "init" then
    t.Init stub w "init" args
  else if function == "write" then
    t.write stub w args
  else
    let w := fmt.Println w ("invoke did not find func: " ++ function)
    ⟨none, some (errors.New ("Received unknown function invocation: " ++ function)), w⟩

/-- Go `func (t *SimpleChaincode) read(stub, args)`. -/
def read (_t : SimpleChaincode) (stub : ChaincodeStubInterface σ) (w : World σ)
    (args : List String) : Outcome σ :=
  if h : args.length ≠ 1 then
    ⟨none, some (errors.New
      "Incorrect number of arguments. Expecting 1: name of the key to query"), w⟩
  else
    let key := args.get ⟨0, by omega⟩
    let r := stub.GetState w.store key
    match r.2 with
    | some _ =>
      let jsonResp := "\x7b\"Error\":\"Failed to get state for " ++ key ++ "\"\x7d"
      ⟨none, some (errors.New jsonResp), w⟩
    | none => ⟨r.1, none, w⟩

/-- Go `func (t *SimpleChaincode) Query(stub, function, args)`. -/
def Query (t : SimpleChaincode) (stub : ChaincodeStubInterface σ) (w : World σ)
    (function : String) (args : List String) : Outcome σ :=
  let w := fmt.Println w ("query is running " ++ function)
  -- Handle different functions
  if function == "read" then
    t.read stub w args
  else
    let w := fmt.Println w ("query did not find func: " ++ function)
    ⟨none, some (errors.New ("Received unknown function query: " ++ function)), w⟩

end SimpleChaincode

/-! ## Stores used to exercise the contract -/

/-- A store that is a finite map, kept as an association list. -/
abbrev MapStore := List (String × Bytes)

/-- A host stub over `MapStore`: `PutState` always succeeds and records the
pair, `GetState` always succeeds and yields the latest value of the key (the
`nil` slice when the key was never written). -/
def mapStub : ChaincodeStubInterface MapStore where
  PutState := fun s k v => ((k, v) :: s, none)
  GetState := fun s k => ((s.lookup k), none)

/-- A host stub whose every `PutState` and `GetState` fails with `e`, leaving
the store as it is. -/
def failingStub (e : GoError) : ChaincodeStubInterface MapStore where
  PutState := fun s _ _ => (s, some e)
  GetState := fun _ _ => (none, some e)

/-- A stub that wraps another one and keeps, beside the wrapped store, the log
of every `PutState` issued (latest first).  `GetState` is passed through. -/
def recordingStub {σ : Type} (stub : ChaincodeStubInterface σ) :
    ChaincodeStubInterface (σ × List (String × Bytes)) where
  PutState := fun s k v => (((stub.PutState s.1 k v).1, (k, v) :: s.2), (stub.PutState s.1 k v).2)
  GetState := fun s k => stub.GetState s.1 k

/-- A store behaves as a key-to-bytes map with successful operations: every
`PutState` returns no error, and afterwards `GetState` returns, with no error,
the written bytes for the written key and what it returned before for every
other key. -/
def BehavesAsMap {σ : Type} (stub : ChaincodeStubInterface σ) : Prop :=
  ∀ (s : σ) (k : String) (v : Bytes),
    (stub.PutState s k v).2 = none ∧
    stub.GetState (stub.PutState s k v).1 k = (some v, none) ∧
    ∀ k2 : String, k2 ≠ k →
      stub.GetState (stub.PutState s k v).1 k2 = stub.GetState s k2

/-! ## Basic facts -/

theorem mapStub_behavesAsMap : BehavesAsMap mapStub := by
  intro s k v
  refine ⟨rfl, ?_, ?_⟩
  · simp [mapStub, List.lookup]
  · intro k2 hk
    have hne : (k2 == k) = false := by simpa using hk
    simp [mapStub, List.lookup, hne]

theorem Println_store {σ : Type} (w : World σ) (line : String) :
    (fmt.Println w line).store = w.store := rfl

namespace SimpleChaincode

variable {σ : Type}

theorem Init_singleton (t : SimpleChaincode) (stub : ChaincodeStubInterface σ) (w : World σ)
    (function v : String) :
    t.Init stub w function [v] =
      ⟨none, (stub.PutState w.store "hello_world" (bytesOf v)).2,
        { w with store := (stub.PutState w.store "hello_world" (bytesOf v)).1 }⟩ := by
  unfold Init
  simp only [List.length_singleton, ne_eq, not_true_eq_false, ↓reduceDIte, List.get_eq_getElem,
    List.getElem_cons_zero]
  cases (stub.PutState w.store "hello_world" (bytesOf v)).2 <;> rfl

theorem write_pair (t : SimpleChaincode) (stub : ChaincodeStubInterface σ) (w : World σ)
    (k v : String) :
    t.write stub w [k, v] =
      ⟨none, (stub.PutState w.store k (bytesOf v)).2,
        { fmt.Println w "running write()" with
          store := (stub.PutState w.store k (bytesOf v)).1 }⟩ := by
  unfold write
  simp only [List.length_cons, List.length_singleton, List.length_nil, ne_eq, not_true_eq_false,
    ↓reduceDIte, List.get_eq_getElem, List.getElem_cons_zero, List.getElem_cons_succ,
    Println_store]
  cases (stub.PutState w.store k (bytesOf v)).2 <;> rfl

theorem read_singleton (t : SimpleChaincode) (stub : ChaincodeStubInterface σ) (w : World σ)
    (k : String) :
    t.read stub w [k] =
      match (stub.GetState w.store k).2 with
      | some _ =>
        ⟨none, some (errors.New ("\x7b\"Error\":\"Failed to get state for " ++ k ++ "\"\x7d")), w⟩
      | none => ⟨(stub.GetState w.store k).1, none, w⟩ := by
  unfold read
  simp only [List.length_singleton, ne_eq, not_true_eq_false, ↓reduceDIte, List.get_eq_getElem,
    List.getElem_cons_zero]

theorem Invoke_write (t : SimpleChaincode) (stub : ChaincodeStubInterface σ) (w : World σ)
    (args : List String) :
    t.Invoke stub w "write" args =
      t.write stub (fmt.Println w ("invoke is running " ++ "write")) args := by
  unfold Invoke
  have h1 : ("write" == "init") = false := by decide
  simp [h1]

theorem Invoke_init (t : SimpleChaincode) (stub : ChaincodeStubInterface σ) (w : World σ)
    (args : List String) :
    t.Invoke stub w "init" args =
      t.Init stub (fmt.Println w ("invoke is running " ++ "init")) "init" args := by
  unfold Invoke
  simp

theorem Query_read (t : SimpleChaincode) (stub : ChaincodeStubInterface σ) (w : World σ)
    (args : List String) :
    t.Query stub w "read" args =
      t.read stub (fmt.Println w ("query is running " ++ "read")) args := by
  unfold Query
  simp

end SimpleChaincode

/-! ## The contract's properties -/

namespace SimpleChaincode

variable {σ : Type}

/-- C1 (round trip): over every store that behaves as a key-to-bytes map with
successful put and get, `Invoke("write", [k, v])` returns no payload and no
error, and `Query("read", [k])` run on the resulting world returns exactly the
bytes of `v` and no error. -/
theorem write_read_roundtrip (t : SimpleChaincode) (stub : ChaincodeStubInterface σ)
    (hmap : BehavesAsMap stub) (w : World σ) (k v : String) :
    (t.Invoke stub w "write" [k, v]).payload = none ∧
    (t.Invoke stub w "write" [k, v]).err = none ∧
    (t.Query stub (t.Invoke stub w "write" [k, v]).world "read" [k]).payload
      = some (bytesOf v) ∧
    (t.Query stub (t.Invoke stub w "write" [k, v]).world "read" [k]).err = none := by
  obtain ⟨hput, hget, -⟩ := hmap w.store k (bytesOf v)
  simp [Invoke_write, write_pair, Query_read, read_singleton, Println_store, hput, hget]

theorem write_read_roundtrip_witness :
    BehavesAsMap mapStub ∧
    (SimpleChaincode.mk.Invoke mapStub ⟨[], ""⟩ "write" ["foo", "bar"]).payload = none ∧
    (SimpleChaincode.mk.Invoke mapStub ⟨[], ""⟩ "write" ["foo", "bar"]).err = none ∧
    (SimpleChaincode.mk.Query mapStub
      (SimpleChaincode.mk.Invoke mapStub ⟨[], ""⟩ "write" ["foo", "bar"]).world
      "read" ["foo"]).payload = some (bytesOf "bar") ∧
    (SimpleChaincode.mk.Query mapStub
      (SimpleChaincode.mk.Invoke mapStub ⟨[], ""⟩ "write" ["foo", "bar"]).world
      "read" ["foo"]).err = none :=
  ⟨mapStub_behavesAsMap,
    write_read_roundtrip SimpleChaincode.mk mapStub mapStub_behavesAsMap ⟨[], ""⟩ "foo" "bar"⟩

/-- C2: over every store that behaves as a key-to-bytes map with successful
put and get, `Init` with the one-element list `[v]` and any function name
returns no payload and no error, the store afterwards is the one produced by
`PutState("hello_world", []byte(v))`, and a following `read(["hello_world"])`
returns exactly the bytes of `v` and no error. -/
theorem Init_stores_hello_world (t : SimpleChaincode) (stub : ChaincodeStubInterface σ)
    (hmap : BehavesAsMap stub) (w : World σ) (function v : String) :
    (t.Init stub w function [v]).payload = none ∧
    (t.Init stub w function [v]).err = none ∧
    (t.Init stub w function [v]).world.store
      = (stub.PutState w.store "hello_world" (bytesOf v)).1 ∧
    (t.read stub (t.Init stub w function [v]).world ["hello_world"]).payload
      = some (bytesOf v) ∧
    (t.read stub (t.Init stub w function [v]).world ["hello_world"]).err = none := by
  obtain ⟨hput, hget, -⟩ := hmap w.store "hello_world" (bytesOf v)
  simp [Init_singleton, read_singleton, hput, hget]

theorem Init_stores_hello_world_witness :
    BehavesAsMap mapStub ∧
    (SimpleChaincode.mk.Init mapStub ⟨[], ""⟩ "deploy" ["hi"]).payload = none ∧
    (SimpleChaincode.mk.Init mapStub ⟨[], ""⟩ "deploy" ["hi"]).err = none ∧
    (SimpleChaincode.mk.Init mapStub ⟨[], ""⟩ "deploy" ["hi"]).world.store
      = (mapStub.PutState [] "hello_world" (bytesOf "hi")).1 ∧
    (SimpleChaincode.mk.read mapStub
      (SimpleChaincode.mk.Init mapStub ⟨[], ""⟩ "deploy" ["hi"]).world
      ["hello_world"]).payload = some (bytesOf "hi") ∧
    (SimpleChaincode.mk.read mapStub
      (SimpleChaincode.mk.Init mapStub ⟨[], ""⟩ "deploy" ["hi"]).world
      ["hello_world"]).err = none :=
  ⟨mapStub_behavesAsMap,
    Init_stores_hello_world SimpleChaincode.mk mapStub mapStub_behavesAsMap ⟨[], ""⟩
      "deploy" "hi"⟩

/-- C3: when the store's `GetState` fails for key `k`, with whatever error and
whatever bytes, `Query("read", [k])` returns no payload and the error made by
`errors.New` whose message is exactly the text
`{"Error":"Failed to get state for ` followed by `k` followed by `"}`. -/
theorem Query_read_get_failure (t : SimpleChaincode) (stub : ChaincodeStubInterface σ)
    (w : World σ) (k : String) (e : GoError)
    (hget : (stub.GetState w.store k).2 = some e) :
    (t.Query stub w "read" [k]).payload = none ∧
    (t.Query stub w "read" [k]).err
      = some (errors.New ("\x7b\"Error\":\"Failed to get state for " ++ k ++ "\"\x7d")) := by
  simp [Query_read, read_singleton, Println_store, hget]

theorem Query_read_get_failure_witness :
    ((failingStub ⟨"not found"⟩).GetState [] "missing_key").2 = some ⟨"not found"⟩ ∧
    (SimpleChaincode.mk.Query (failingStub ⟨"not found"⟩) ⟨[], ""⟩ "read"
      ["missing_key"]).payload = none ∧
    (SimpleChaincode.mk.Query (failingStub ⟨"not found"⟩) ⟨[], ""⟩ "read"
      ["missing_key"]).err
      = some (errors.New
          ("\x7b\"Error\":\"Failed to get state for " ++ "missing_key" ++ "\"\x7d")) :=
  ⟨rfl, Query_read_get_failure SimpleChaincode.mk (failingStub ⟨"not found"⟩) ⟨[], ""⟩
    "missing_key" ⟨"not found"⟩ rfl⟩

/-- C4: for every function name other than "init" and "write", every argument
list and every store, `Invoke` returns no payload and the error whose message
is "Received unknown function invocation: " followed by the name, and the
store after the call is the store before it; run against a stub that logs
every `PutState`, the call leaves the log as it was (no put is issued). -/
theorem Invoke_unknown_function (t : SimpleChaincode) (stub : ChaincodeStubInterface σ)
    (w : World σ) (function : String) (args : List String)
    (hinit : function ≠ "init") (hwrite : function ≠ "write") :
    (t.Invoke stub w function args).payload = none ∧
    (t.Invoke stub w function args).err
      = some (errors.New ("Received unknown function invocation: " ++ function)) ∧
    (t.Invoke stub w function args).world.store = w.store ∧
    ∀ puts : List (String × Bytes),
      (t.Invoke (recordingStub stub) ⟨(w.store, puts), w.stdout⟩ function args).world.store
        = (w.store, puts) := by
  have h1 : (function == "init") = false := by simpa using hinit
  have h2 : (function == "write") = false := by simpa using hwrite
  simp only [Invoke, h1, h2]
  exact ⟨rfl, rfl, rfl, fun _ => rfl⟩

theorem Invoke_unknown_function_witness :
    "deleteEverything" ≠ "init" ∧ "deleteEverything" ≠ "write" ∧
    (SimpleChaincode.mk.Invoke mapStub ⟨[("foo", bytesOf "bar")], ""⟩ "deleteEverything"
      ["foo"]).payload = none ∧
    (SimpleChaincode.mk.Invoke mapStub ⟨[("foo", bytesOf "bar")], ""⟩ "deleteEverything"
      ["foo"]).err
      = some (errors.New ("Received unknown function invocation: " ++ "deleteEverything")) ∧
    (SimpleChaincode.mk.Invoke mapStub ⟨[("foo", bytesOf "bar")], ""⟩ "deleteEverything"
      ["foo"]).world.store = [("foo", bytesOf "bar")] ∧
    ∀ puts : List (String × Bytes),
      (SimpleChaincode.mk.Invoke (recordingStub mapStub)
        ⟨([("foo", bytesOf "bar")], puts), ""⟩ "deleteEverything" ["foo"]).world.store
        = ([("foo", bytesOf "bar")], puts) :=
  ⟨by decide, by decide,
    Invoke_unknown_function SimpleChaincode.mk mapStub ⟨[("foo", bytesOf "bar")], ""⟩
      "deleteEverything" ["foo"] (by decide) (by decide)⟩

/-- C5: for every function name other than "read", every argument list and
every store, `Query` returns no payload and the error whose message is
"Received unknown function query: " followed by the name; this covers
`Query("write", ...)` and `Query("init", ...)`. -/
theorem Query_unknown_function (t : SimpleChaincode) (stub : ChaincodeStubInterface σ)
    (w : World σ) (function : String) (args : List String)
    (hread : function ≠ "read") :
    (t.Query stub w function args).payload = none ∧
    (t.Query stub w function args).err
      = some (errors.New ("Received unknown function query: " ++ function)) := by
  have h1 : (function == "read") = false := by simpa using hread
  simp only [Query, h1]
  exact ⟨rfl, rfl⟩

theorem Query_unknown_function_witness :
    ("write" ≠ "read" ∧
      (SimpleChaincode.mk.Query mapStub ⟨[], ""⟩ "write" ["foo", "bar"]).payload = none ∧
      (SimpleChaincode.mk.Query mapStub ⟨[], ""⟩ "write" ["foo", "bar"]).err
        = some (errors.New ("Received unknown function query: " ++ "write"))) ∧
    ("init" ≠ "read" ∧
      (SimpleChaincode.mk.Query mapStub ⟨[], ""⟩ "init" ["x"]).payload = none ∧
      (SimpleChaincode.mk.Query mapStub ⟨[], ""⟩ "init" ["x"]).err
        = some (errors.New ("Received unknown function query: " ++ "init"))) :=
  ⟨⟨by decide,
      Query_unknown_function SimpleChaincode.mk mapStub ⟨[], ""⟩ "write" ["foo", "bar"]
        (by decide)⟩,
    ⟨by decide,
      Query_unknown_function SimpleChaincode.mk mapStub ⟨[], ""⟩ "init" ["x"] (by decide)⟩⟩

end SimpleChaincode

namespace SimpleChaincode

variable {σ : Type}

/-- C6: for every argument list whose length is not 2 and every store,
`write`, called directly or through `Invoke("write", args)`, returns no
payload and the error "Incorrect number of arguments. Expecting 2: name of the
key and value to set", and the store after the call is the store before it. -/
theorem write_wrong_arg_count (t : SimpleChaincode) (stub : ChaincodeStubInterface σ)
    (w : World σ) (args : List String) (hlen : args.length ≠ 2) :
    ((t.write stub w args).payload = none ∧
      (t.write stub w args).err = some (errors.New
        "Incorrect number of arguments. Expecting 2: name of the key and value to set") ∧
      (t.write stub w args).world.store = w.store) ∧
    ((t.Invoke stub w "write" args).payload = none ∧
      (t.Invoke stub w "write" args).err = some (errors.New
        "Incorrect number of arguments. Expecting 2: name of the key and value to set") ∧
      (t.Invoke stub w "write" args).world.store = w.store) := by
  simp [Invoke_write, write, hlen, Println_store]

theorem write_wrong_arg_count_witness :
    ["a", "b", "c"].length ≠ 2 ∧
    ((SimpleChaincode.mk.write mapStub ⟨[], ""⟩ ["a", "b", "c"]).payload = none ∧
      (SimpleChaincode.mk.write mapStub ⟨[], ""⟩ ["a", "b", "c"]).err = some (errors.New
        "Incorrect number of arguments. Expecting 2: name of the key and value to set") ∧
      (SimpleChaincode.mk.write mapStub ⟨[], ""⟩ ["a", "b", "c"]).world.store = []) ∧
    ((SimpleChaincode.mk.Invoke mapStub ⟨[], ""⟩ "write" ["a", "b", "c"]).payload = none ∧
      (SimpleChaincode.mk.Invoke mapStub ⟨[], ""⟩ "write" ["a", "b", "c"]).err
        = some (errors.New
        "Incorrect number of arguments. Expecting 2: name of the key and value to set") ∧
      (SimpleChaincode.mk.Invoke mapStub ⟨[], ""⟩ "write" ["a", "b", "c"]).world.store = []) :=
  ⟨by decide,
    write_wrong_arg_count SimpleChaincode.mk mapStub ⟨[], ""⟩ ["a", "b", "c"] (by decide)⟩

/-- C7: for every argument list whose length is not 1, every function-name
argument and every store, `Init` returns no payload and the error "Incorrect
number of arguments. Expecting 1" and leaves the world as it was; reached
through `Invoke("init", args)` it returns the same pair and the store after
the call is the store before it. -/
theorem Init_wrong_arg_count (t : SimpleChaincode) (stub : ChaincodeStubInterface σ)
    (w : World σ) (function : String) (args : List String) (hlen : args.length ≠ 1) :
    t.Init stub w function args
      = ⟨none, some (errors.New "Incorrect number of arguments. Expecting 1"), w⟩ ∧
    ((t.Invoke stub w "init" args).payload = none ∧
      (t.Invoke stub w "init" args).err
        = some (errors.New "Incorrect number of arguments. Expecting 1") ∧
      (t.Invoke stub w "init" args).world.store = w.store) := by
  simp [Invoke_init, Init, hlen, Println_store]

theorem Init_wrong_arg_count_witness :
    ["a", "b"].length ≠ 1 ∧
    SimpleChaincode.mk.Init mapStub ⟨[], ""⟩ "deploy" ["a", "b"]
      = ⟨none, some (errors.New "Incorrect number of arguments. Expecting 1"), ⟨[], ""⟩⟩ ∧
    ((SimpleChaincode.mk.Invoke mapStub ⟨[], ""⟩ "init" ["a", "b"]).payload = none ∧
      (SimpleChaincode.mk.Invoke mapStub ⟨[], ""⟩ "init" ["a", "b"]).err
        = some (errors.New "Incorrect number of arguments. Expecting 1") ∧
      (SimpleChaincode.mk.Invoke mapStub ⟨[], ""⟩ "init" ["a", "b"]).world.store = []) :=
  ⟨by decide,
    Init_wrong_arg_count SimpleChaincode.mk mapStub ⟨[], ""⟩ "deploy" ["a", "b"] (by decide)⟩

/-- C8: for every argument list whose length is not 1 and every store, `read`,
called directly or through `Query("read", args)`, returns no payload and the
error "Incorrect number of arguments. Expecting 1: name of the key to query",
whatever the store's `GetState` would answer. -/
theorem read_wrong_arg_count (t : SimpleChaincode) (stub : ChaincodeStubInterface σ)
    (w : World σ) (args : List String) (hlen : args.length ≠ 1) :
    ((t.read stub w args).payload = none ∧
      (t.read stub w args).err = some (errors.New
        "Incorrect number of arguments. Expecting 1: name of the key to query")) ∧
    ((t.Query stub w "read" args).payload = none ∧
      (t.Query stub w "read" args).err = some (errors.New
        "Incorrect number of arguments. Expecting 1: name of the key to query")) := by
  simp [Query_read, read, hlen]

theorem read_wrong_arg_count_witness :
    ([] : List String).length ≠ 1 ∧
    ((SimpleChaincode.mk.read mapStub ⟨[("foo", bytesOf "bar")], ""⟩ []).payload = none ∧
      (SimpleChaincode.mk.read mapStub ⟨[("foo", bytesOf "bar")], ""⟩ []).err
        = some (errors.New
        "Incorrect number of arguments. Expecting 1: name of the key to query")) ∧
    ((SimpleChaincode.mk.Query mapStub ⟨[("foo", bytesOf "bar")], ""⟩ "read" []).payload
        = none ∧
      (SimpleChaincode.mk.Query mapStub ⟨[("foo", bytesOf "bar")], ""⟩ "read" []).err
        = some (errors.New
        "Incorrect number of arguments. Expecting 1: name of the key to query")) :=
  ⟨by decide,
    read_wrong_arg_count SimpleChaincode.mk mapStub ⟨[("foo", bytesOf "bar")], ""⟩ []
      (by decide)⟩

/-- C9: put failures are propagated.  If the store's `PutState` of the bytes
of `v` under "hello_world" fails with error `e`, then `Init` with `[v]`
returns no payload and that same error `e`; if its `PutState` of the bytes of
`v` under `k` fails with `e`, then `write` with `[k, v]` returns no payload
and that same error `e`.  Neither is a success. -/
theorem put_failure_propagated (t : SimpleChaincode) (stub : ChaincodeStubInterface σ)
    (w : World σ) (function k v : String) (e : GoError) :
    ((stub.PutState w.store "hello_world" (bytesOf v)).2 = some e →
      (t.Init stub w function [v]).payload = none ∧
      (t.Init stub w function [v]).err = some e ∧
      (t.Init stub w function [v]).err ≠ none) ∧
    ((stub.PutState w.store k (bytesOf v)).2 = some e →
      (t.write stub w [k, v]).payload = none ∧
      (t.write stub w [k, v]).err = some e ∧
      (t.write stub w [k, v]).err ≠ none) := by
  refine ⟨fun h => ?_, fun h => ?_⟩
  · simp [Init_singleton, h]
  · simp [write_pair, h]

theorem put_failure_propagated_witness :
    (((failingStub ⟨"ledger down"⟩).PutState [] "hello_world" (bytesOf "hi")).2
        = some ⟨"ledger down"⟩ ∧
      (SimpleChaincode.mk.Init (failingStub ⟨"ledger down"⟩) ⟨[], ""⟩ "deploy"
        ["hi"]).payload = none ∧
      (SimpleChaincode.mk.Init (failingStub ⟨"ledger down"⟩) ⟨[], ""⟩ "deploy" ["hi"]).err
        = some ⟨"ledger down"⟩ ∧
      (SimpleChaincode.mk.Init (failingStub ⟨"ledger down"⟩) ⟨[], ""⟩ "deploy" ["hi"]).err
        ≠ none) ∧
    (((failingStub ⟨"ledger down"⟩).PutState [] "foo" (bytesOf "hi")).2
        = some ⟨"ledger down"⟩ ∧
      (SimpleChaincode.mk.write (failingStub ⟨"ledger down"⟩) ⟨[], ""⟩
        ["foo", "hi"]).payload = none ∧
      (SimpleChaincode.mk.write (failingStub ⟨"ledger down"⟩) ⟨[], ""⟩ ["foo", "hi"]).err
        = some ⟨"ledger down"⟩ ∧
      (SimpleChaincode.mk.write (failingStub ⟨"ledger down"⟩) ⟨[], ""⟩ ["foo", "hi"]).err
        ≠ none) :=
  ⟨⟨rfl, (put_failure_propagated SimpleChaincode.mk (failingStub ⟨"ledger down"⟩) ⟨[], ""⟩
      "deploy" "foo" "hi" ⟨"ledger down"⟩).1 rfl⟩,
    ⟨rfl, (put_failure_propagated SimpleChaincode.mk (failingStub ⟨"ledger down"⟩) ⟨[], ""⟩
      "deploy" "foo" "hi" ⟨"ledger down"⟩).2 rfl⟩⟩

/-- C10: `Query` is read-only.  For every function name, every argument list
and every store, the store after `Query` is the store before it, whether the
call succeeds or fails; run against a stub that logs every `PutState`, the
call leaves the log as it was (no put is issued). -/
theorem Query_read_only (t : SimpleChaincode) (stub : ChaincodeStubInterface σ)
    (w : World σ) (function : String) (args : List String) :
    (t.Query stub w function args).world.store = w.store ∧
    ∀ puts : List (String × Bytes),
      (t.Query (recordingStub stub) ⟨(w.store, puts), w.stdout⟩ function args).world.store
        = (w.store, puts) := by
  have key : ∀ {τ : Type} (st : ChaincodeStubInterface τ) (u : World τ),
      (t.Query st u function args).world.store = u.store := by
    intro τ st u
    unfold Query
    split
    · unfold read
      split
      · rfl
      · dsimp only
        split <;> rfl
    · rfl
  exact ⟨key stub w, fun puts => key (recordingStub stub) ⟨(w.store, puts), w.stdout⟩⟩

end SimpleChaincode
